import Mathlib

/-!
# Verification of the Infinity Grid Generator extension's parameter-axis execution layer

Shallow embedding of `scripts/infinity_grid.py` (the A1111 extension bridging the
generic grid engine `gridgencore` to the Stable Diffusion WebUI backend).

Python strings are modelled as Lean `String` (a list of code points), and the
Python string primitives used by the source (`split`, `replace`, `strip`,
`lower`, the `in` operator, `int()`) are re-implemented below with Python's
exact semantics, by structural recursion so that concrete instances evaluate.

Shared backend configuration (`modules.shared.opts`) is modelled as an explicit
`Opts` record holding the four fields this extension reads and writes; backend
reload operations are modelled as an event trace, each event carrying the
configuration visible to the backend at the moment it is triggered.
-/

namespace InfinityGrid

/-- Python whitespace for `str.strip()` (ASCII subset, which is all the source uses). -/
def isPyWhitespace (c : Char) : Bool :=
  c = ' ' || c = '\t' || c = '\n' || c = '\r' || c = '\x0b' || c = '\x0c'

/-- Python `s.strip()`: remove leading and trailing whitespace. -/
def pyStrip (s : String) : String :=
  ⟨((s.data.dropWhile isPyWhitespace).reverse.dropWhile isPyWhitespace).reverse⟩

/-- Python `s.lower()` (ASCII case mapping, which is all the source needs). -/
def pyLower (s : String) : String :=
  ⟨s.data.map Char.toLower⟩

/-- Does `pre` lead the list `l` (i.e. is it a prefix of `l`)? -/
def leadsWith : List Char → List Char → Bool
  | [], _ => true
  | _ :: _, [] => false
  | a :: as, b :: bs => a = b && leadsWith as bs

/-- Scan for `sub` as a contiguous segment of `l` (Python's `in` on strings). -/
def containsL (sub : List Char) : List Char → Bool
  | [] => sub.isEmpty
  | c :: rest => leadsWith sub (c :: rest) || containsL sub rest

/-- Python `sub in s` for strings. -/
def pyContains (s sub : String) : Bool :=
  containsL sub.data s.data

/-- Fuel-driven splitter: splits at each non-overlapping occurrence of `sep`
(nonempty), scanning left to right.  Fuel bounds the recursion; `cs.length`
fuel always suffices since every step consumes at least one character. -/
def splitFuel (sep : List Char) : Nat → List Char → List (List Char)
  | _, [] => [[]]
  | 0, cs => [cs]
  | fuel + 1, c :: rest =>
    if leadsWith sep (c :: rest) then
      [] :: splitFuel sep fuel (List.drop (sep.length - 1) rest)
    else
      match splitFuel sep fuel rest with
      | [] => [[c]]
      | x :: xs => (c :: x) :: xs

/-- Python `s.split(sep)` for a nonempty separator (the source only splits on
`"&&"`); an empty separator is a `ValueError` in Python and never occurs. -/
def pySplit (s sep : String) : List String :=
  if sep.data.isEmpty then [s]
  else (splitFuel sep.data s.data.length s.data).map (fun l => ⟨l⟩)

/-- Replace every non-overlapping occurrence of `m` by `r`, left to right. -/
def replaceFuel (m r : List Char) : Nat → List Char → List Char
  | _, [] => []
  | 0, cs => cs
  | fuel + 1, c :: rest =>
    if leadsWith m (c :: rest) then
      r ++ replaceFuel m r fuel (List.drop (m.length - 1) rest)
    else
      c :: replaceFuel m r fuel rest

/-- Python `s.replace(m, r)`: replaces all non-overlapping occurrences left to
right; an empty pattern inserts `r` before every character and at the end. -/
def pyReplace (s m r : String) : String :=
  if m.data.isEmpty then
    ⟨r.data ++ (s.data.map (fun c => c :: r.data)).flatten⟩
  else
    ⟨replaceFuel m.data r.data s.data.length s.data⟩

/-- Split off everything before the first occurrence of character `sep`. -/
def breakAtChar (sep : Char) : List Char → Option (List Char × List Char)
  | [] => none
  | c :: rest =>
    if c = sep then some ([], rest)
    else (breakAtChar sep rest).map (fun p => (c :: p.1, p.2))

/-- Python `v.split(sep, maxsplit=1)` for a single-character separator
(the source only uses `v.split('=', maxsplit=1)`). -/
def pySplit1 (v : String) (sep : Char) : List String :=
  match breakAtChar sep v.data with
  | none => [v]
  | some (a, b) => [⟨a⟩, ⟨b⟩]

/-- Digit-string value, `none` when empty or a non-digit appears. -/
def digitsVal : List Char → Option Nat
  | [] => none
  | ds => go ds 0
where
  go : List Char → Nat → Option Nat
    | [], acc => some acc
    | c :: rest, acc =>
      if c.isDigit then go rest (acc * 10 + (c.toNat - 48)) else none

/-- Python `int(s)` on strings: optional sign, digits, surrounding whitespace;
`none` models the `ValueError` Python raises on anything else. -/
def pyInt? (s : String) : Option Int :=
  match (pyStrip s).data with
  | '-' :: ds => (digitsVal ds).map (fun n => -(n : Int))
  | '+' :: ds => (digitsVal ds).map (fun n => (n : Int))
  | ds => (digitsVal ds).map (fun n => (n : Int))

/-- Python `x or d` for an optional integer (`None` and `0` are both falsy). -/
def pyOrInt (x : Option Int) (d : Int) : Int :=
  match x with
  | none => d
  | some v => if v = 0 then d else v

/-- Python's `repr` of a list of strings, as interpolated by the source's
error-message f-strings: `['a', 'b']`. -/
def pyListRepr (l : List String) : String :=
  "[" ++ String.intercalate ", " (l.map (fun s => "'" ++ s ++ "'")) ++ "]"

/-! ## Data model: shared backend configuration and the generation request -/

/-- The four shared-configuration fields of `modules.shared.opts` this extension
reads and writes: `sd_model_checkpoint`, `sd_vae`, `code_former_weight`,
`face_restoration_model`.  The checkpoint and VAE ids are optional because the
resolution helpers can yield Python `None`; the code-former weight is an opaque
numeric value that is only copied around, modelled as `Int`. -/
structure Opts where
  sd_model_checkpoint : Option String
  sd_vae : Option String
  code_former_weight : Int
  face_restoration_model : String
deriving DecidableEq, Repr

/-- A backend reload operation, carrying the shared configuration visible to
the backend at the moment the reload is triggered (so "the mutation is active
at reload time" is expressible). -/
inductive BackendEvent
  | reloadModel (cfg : Opts)
  | reloadVae (cfg : Opts)
deriving DecidableEq, Repr

/-- Shared process state: the configuration plus the trace of backend reloads. -/
structure RunSt where
  opts : Opts
  events : List BackendEvent
deriving DecidableEq, Repr

/-- The fields of the generation request (`processing` object `p`) that the
embedded code reads or writes. `enable_hr` and `hr_second_pass_steps` are
optional to model `hasattr` / Python `None`; `inf_grid_use_result_index`,
`inf_grid_out_width/height` are extension-added attributes, absent unless the
corresponding axis set them (`getattr`/`hasattr` in the source). -/
structure ProcObj where
  prompt : String
  negative_prompt : String
  seed : Int
  subseed : Int
  n_iter : Int
  batch_size : Int
  do_not_save_samples : Bool
  do_not_save_grid : Bool
  steps : Int
  enable_hr : Option Bool
  hr_second_pass_steps : Option Int
  inf_grid_use_result_index : Option Nat
  inf_grid_out_width : Option Int
  inf_grid_out_height : Option Int
deriving DecidableEq, Repr

/-! ## Modelled collaborators

`gridgencore` (the grid engine, part of the same repository but not under the
sources given here) and the WebUI backend are modelled at their interface. -/

/-- Modelled from the spec: `gridgencore.clean_name` — §4.1 "normalizes (trim,
lowercase, collapse whitespace) before matching"; whitespace is removed
entirely, so multi-word mode names compare by their compact keys (the source
compares `clean_mode(param)` against `"promptreplace"`, `"outwidth"`, …). -/
def clean_name (s : String) : String :=
  ⟨(pyLower (pyStrip s)).data.filter (fun c => !(isPyWhitespace c))⟩

/-- Modelled from the spec: `gridgencore.clean_mode`, the same normalization
applied to mode names (§4.1 `lookup(name)` normalizes before matching). -/
def clean_mode (s : String) : String := clean_name s

/-- Modelled from the spec: `gridgencore.get_best_in_list` — returns the first
catalog entry whose normalized name equals the normalized query, absent when
the value matches no entry (§4.1 lookup normalizes before matching; §8 an
out-of-catalog value matches nothing). -/
def get_best_in_list (name : String) (l : List String) : Option String :=
  l.find? (fun e => clean_name e == clean_name name)

/-- Modelled from the spec: `gridgencore.choose_better_file_name` — the spec
(§4.2) only requires `clean` to return a normalized name, modelled as the
matched catalog entry. -/
def choose_better_file_name (_raw actual : String) : String := actual

/-- Modelled from the spec: the backend's seed fixing
(`modules.processing.get_fixed_seed`, §4.4 "fixing unset random seeds
deterministically first"): an unset seed (`-1`) is replaced by the value
`fresh` the backend draws; a set seed is kept. -/
def get_fixed_seed (fresh : Int) (seed : Int) : Int :=
  if seed = -1 then fresh else seed

/-! ## Value mode helpers (`infinity_grid.py` lines 34–121)

Catalogs (`sd_models.checkpoints_list` titles, `sd_vae.vae_dict` keys) are
passed explicitly, since they are live backend state. -/

/-- `get_model_for(name)`: resolve a model name against the checkpoint titles. -/
def get_model_for (checkpoint_titles : List String) (name : String) : Option String :=
  get_best_in_list name checkpoint_titles

/-- `apply_model(p, v)`: writes the resolved checkpoint into
`opts.sd_model_checkpoint`, then `sd_models.reload_model_weights()`. -/
def apply_model (checkpoint_titles : List String) (v : String) (s : RunSt) : RunSt :=
  let opts := { s.opts with sd_model_checkpoint := get_model_for checkpoint_titles v }
  { opts := opts, events := s.events ++ [.reloadModel opts] }

/-- `clean_model(p, v)`: raises `RuntimeError` (the ValidationError of the
spec) when the value resolves to no checkpoint; the message carries the
parameter name, the offending value and the catalog. -/
def clean_model (checkpoint_titles : List String) (p v : String) : Except String String :=
  match get_model_for checkpoint_titles v with
  | none =>
    .error ("Invalid parameter '" ++ p ++ "' as '" ++ v ++
      "': model name unrecognized - valid " ++ pyListRepr checkpoint_titles)
  | some actual_model => .ok (choose_better_file_name v actual_model)

/-- `get_vae_for(name)`: resolve a VAE name against the VAE dictionary keys. -/
def get_vae_for (vae_names : List String) (name : String) : Option String :=
  get_best_in_list name vae_names

/-- `apply_vae(p, v)`: normalizes the name (`none` → `"None"`, `auto`/
`automatic` → `"Automatic"`, otherwise catalog resolution), writes
`opts.sd_vae`, then `sd_vae.reload_vae_weights(None)`. -/
def apply_vae (vae_names : List String) (v : String) (s : RunSt) : RunSt :=
  let vae_name := clean_name v
  let vae_name : Option String :=
    if vae_name = "none" then some "None"
    else if vae_name = "auto" || vae_name = "automatic" then some "Automatic"
    else get_vae_for vae_names vae_name
  let opts := { s.opts with sd_vae := vae_name }
  { opts := opts, events := s.events ++ [.reloadVae opts] }

/-- `clean_vae(p, v)`: special names pass through; otherwise resolve against
the catalog, raising with name/value/catalog in the message on no match. -/
def clean_vae (vae_names : List String) (p v : String) : Except String String :=
  let vae_name := clean_name v
  if vae_name = "none" || vae_name = "auto" || vae_name = "automatic" then
    .ok vae_name
  else
    match get_vae_for vae_names vae_name with
    | none =>
      .error ("Invalid parameter '" ++ p ++ "' as '" ++ v ++
        "': VAE name unrecognized - valid: " ++ pyListRepr vae_names)
    | some actual_vae => .ok (choose_better_file_name v actual_vae)

/-- `apply_prompt_replace(p, v)` (lines 95–107): splits `v` on `'&&'` into
instructions, then for each instruction parses **`v`** (not the instruction —
this is what the source line 99 does) at its first `'='`, optionally validates
that the match occurs in one of the prompts, and replaces the match by the
replacement in both prompts.  `validate` is `Script.VALIDATE_REPLACE`. -/
def apply_prompt_replace (validate : Bool) (p : ProcObj) (v : String) :
    Except String ProcObj :=
  ((pySplit v "&&").map pyStrip).foldlM (fun p replacementInstruction =>
    match pySplit1 v '=' with
    | [m0, r0] =>
      let mtext := pyStrip m0
      let rtext := pyStrip r0
      if validate && !(pyContains p.prompt mtext) && !(pyContains p.negative_prompt mtext) then
        .error ("Invalid prompt replace, '" ++ mtext ++ "' is not in prompt '" ++
          p.prompt ++ "' nor negative prompt '" ++ p.negative_prompt ++ "'")
      else
        .ok { p with prompt := pyReplace p.prompt mtext rtext,
                     negative_prompt := pyReplace p.negative_prompt mtext rtext }
    | _ =>
      .error ("Invalid prompt replace, missing '=' symbol, for '" ++
        replacementInstruction ++ "'")) p

/-! ## Grid-call hooks (`infinity_grid.py` lines 221–241) -/

/-- The owning grid's state touched by the hooks: the base request dimensions
(`initial_p.width/height`) and the running grid-level minima. -/
structure Grid where
  initial_width : Int
  initial_height : Int
  min_width : Option Int
  min_height : Option Int
deriving DecidableEq, Repr

/-- `gridgencore.SingleGridCall`, restricted to the fields the hooks touch. -/
structure SingleGridCall where
  grid : Grid
  replacements : List String
deriving DecidableEq, Repr

/-- `a1111_grid_call_init_hook(grid_call)`: fresh empty replacement list. -/
def a1111_grid_call_init_hook (gc : SingleGridCall) : SingleGridCall :=
  { gc with replacements := [] }

/-- `a1111_grid_call_param_add_hook(grid_call, param, value)` (lines 224–237):
seeds the grid minima from the request's base dimensions on first touch,
records prompt-replace values (returning `true`), and folds width/height-like
observations into the grid minima with Python's falsy `or` guard.  The
`Except` models the `ValueError` of `int(value)`. -/
def a1111_grid_call_param_add_hook (gc : SingleGridCall) (param : String)
    (value : String) : Except String (SingleGridCall × Bool) :=
  let g := gc.grid
  let g := if g.min_width = none then { g with min_width := some g.initial_width } else g
  let g := if g.min_height = none then { g with min_height := some g.initial_height } else g
  let cleaned := clean_mode param
  if cleaned = "promptreplace" then
    .ok ({ gc with grid := g, replacements := gc.replacements ++ [value] }, true)
  else if cleaned = "width" || cleaned = "outwidth" then
    match pyInt? value with
    | none => .error ("invalid literal for int() with base 10: '" ++ value ++ "'")
    | some n =>
      .ok ({ gc with grid := { g with min_width := some (min (pyOrInt g.min_width 99999) n) } }, false)
  else if cleaned = "height" || cleaned = "outheight" then
    match pyInt? value with
    | none => .error ("invalid literal for int() with base 10: '" ++ value ++ "'")
    | some n =>
      .ok ({ gc with grid := { g with min_height := some (min (pyOrInt g.min_height 99999) n) } }, false)
  else
    .ok ({ gc with grid := g }, false)

/-- `a1111_grid_call_apply_hook(grid_call, p, dry)` (lines 239–241): replays
every recorded replacement, in order, through `apply_prompt_replace`. -/
def a1111_grid_call_apply_hook (validate : Bool) (replacements : List String)
    (p : ProcObj) : Except String ProcObj :=
  replacements.foldlM (fun p replace => apply_prompt_replace validate p replace) p

/-! ## Grid-runner hooks (`infinity_grid.py` lines 249–299) -/

/-- `a1111_grid_runner_pre_dry_hook(grid_runner)` (lines 251–256): snapshot
the four shared-configuration fields into `grid_runner.temp`. -/
def a1111_grid_runner_pre_dry_hook (opts : Opts) : Opts :=
  { code_former_weight := opts.code_former_weight,
    face_restoration_model := opts.face_restoration_model,
    sd_vae := opts.sd_vae,
    sd_model_checkpoint := opts.sd_model_checkpoint }

/-- Result of one `a1111_grid_runner_post_dry_hook` execution: the outcome
(the selected result index, or the raised error), the shared configuration
when the hook finishes (normally or by raising), and the request actually
passed to `process_images`. -/
structure PostDryOut where
  outcome : Except String Nat
  optsAfter : Opts
  invoked : ProcObj
deriving Repr

/-- `a1111_grid_runner_post_dry_hook(grid_runner, p, set)` (lines 258–286):
fixes unset seeds, invokes the backend (`process_images`, modelled by the
`render` oracle and the `fresh1`/`fresh2` values the backend draws for unset
seeds), raises when zero images were produced, otherwise selects the result
image by the clamped result index, schedules the asynchronous save, and only
then — on the success path, after the raise site — writes the `temp` snapshot
back into the four shared-configuration fields (lines 281–284). -/
def a1111_grid_runner_post_dry_hook (render : ProcObj → List Nat)
    (fresh1 fresh2 : Int) (temp : Opts) (opts : Opts) (p : ProcObj) : PostDryOut :=
  let p := { p with seed := get_fixed_seed fresh1 p.seed,
                    subseed := get_fixed_seed fresh2 p.subseed }
  let images := render p
  if images.length < 1 then
    { outcome := .error ("Something went wrong! Image gen produced " ++
        toString images.length ++ " images, which is wrong"),
      optsAfter := opts,
      invoked := p }
  else
    let result_index := p.inf_grid_use_result_index.getD 0
    let result_index := if result_index ≥ images.length then images.length - 1 else result_index
    { outcome := .ok result_index,
      optsAfter := { code_former_weight := temp.code_former_weight,
                     face_restoration_model := temp.face_restoration_model,
                     sd_vae := temp.sd_vae,
                     sd_model_checkpoint := temp.sd_model_checkpoint },
      invoked := p }

/-- `a1111_grid_runner_count_steps(grid_runner, set)` (lines 288–299):
per-coordinate step estimate.  `params_steps`, `params_enable_highres_fix`,
`params_highres_steps` are `set.params.get(...)` results; `p` is the request
defaults object `grid_runner.p`.  `p.hr_second_pass_steps or step_count` is
Python's falsy `or` (both `None` and `0` fall through). -/
def a1111_grid_runner_count_steps (p : ProcObj) (params_steps : Option Int)
    (params_enable_highres_fix : Option Bool) (params_highres_steps : Option Int) : Int :=
  let step_count :=
    match params_steps with
    | some v => v
    | none => p.steps
  let total_steps := step_count
  let enable_hr :=
    match params_enable_highres_fix with
    | some b => b
    | none => p.enable_hr.getD false
  if enable_hr then
    let highres_steps :=
      match params_highres_steps with
      | some v => v
      | none => pyOrInt p.hr_second_pass_steps step_count
    total_steps + highres_steps
  else total_steps

/-! ## `SettingsFixer` (lines 328–341) and `Script.run` (lines 456–483) -/

/-- `SettingsFixer.__enter__`: capture the four shared-configuration fields. -/
def settingsFixerCapture (s : RunSt) : Opts := s.opts

/-- `SettingsFixer.__exit__(exc_type, exc_value, tb)`: write the four captured
values back, then `sd_models.reload_model_weights()` and
`sd_vae.reload_vae_weights()`. -/
def settingsFixerRelease (captured : Opts) (s : RunSt) : RunSt :=
  let opts : Opts :=
    { code_former_weight := captured.code_former_weight,
      face_restoration_model := captured.face_restoration_model,
      sd_vae := captured.sd_vae,
      sd_model_checkpoint := captured.sd_model_checkpoint }
  { opts := opts, events := s.events ++ [.reloadModel opts, .reloadVae opts] }

/-- Python's `with SettingsFixer(): body` — `__enter__` before the body,
`__exit__` on every exit path; a body exception (the `Except.error` outcome,
carrying the state at raise time) still propagates after `__exit__` runs. -/
def withSettingsFixer {α : Type} (body : RunSt → Except String α × RunSt)
    (s : RunSt) : Except String α × RunSt :=
  let captured := settingsFixerCapture s
  let r := body s
  (r.1, settingsFixerRelease captured r.2)

/-- The "Clean up default params" block of `Script.run` (lines 460–465): the
request is copied, batch size and iteration count are forced to 1, sample and
grid saving are disabled, the seed is fixed. -/
def scriptRunCleanup (fresh : Int) (p : ProcObj) : ProcObj :=
  { p with n_iter := 1, batch_size := 1,
           do_not_save_samples := true, do_not_save_grid := true,
           seed := get_fixed_seed fresh p.seed }

/-- `Script.run` (lines 456–483): cleans up the copied request (batch size and
iteration count forced to 1, seed fixed), validates the grid-file name and
output path, and only then runs the grid generation (`core.run_grid_gen`,
modelled by the oracle `run_grid_gen`, which may mutate shared state and may
raise) inside the `SettingsFixer` guard.  The validation `RuntimeError`s are
raised before the guard and before any generation. -/
def Script_run (run_grid_gen : ProcObj → RunSt → Except String (Option Nat) × RunSt)
    (fresh : Int) (grid_file output_file_path : String) (p : ProcObj)
    (s : RunSt) : Except String (Option Nat) × RunSt :=
  let p := scriptRunCleanup fresh p
  if pyContains grid_file ".." || grid_file = "" then
    (.error ("Unacceptable filename '" ++ grid_file ++ "'"), s)
  else if pyContains output_file_path ".." then
    (.error ("Unacceptable alt file path '" ++ output_file_path ++ "'"), s)
  else if grid_file = "Create in UI" && output_file_path = "" then
    (.error "Must specify the output file path", s)
  else
    withSettingsFixer (run_grid_gen p) s

/-! ## Auxiliary definitions for the claim statements -/

/-- `Except.isOk` spelled out, so success/failure is a Bool equation. -/
def exceptIsOk {ε α : Type} : Except ε α → Bool
  | .ok _ => true
  | .error _ => false

/-- The seeding step of `a1111_grid_call_param_add_hook` (lines 225–228):
first touch seeds the grid minima from the request's base dimensions. -/
def seedMinima (g : Grid) : Grid :=
  let g := if g.min_width = none then { g with min_width := some g.initial_width } else g
  if g.min_height = none then { g with min_height := some g.initial_height } else g

/-- One substitution as the claim describes it: the recorded value is split at
its first `=` into a match and a replacement (both stripped), and every literal
occurrence of the match is replaced, once, in both prompts.  A value without
`=` is left undescribed by the claim and returned unchanged here. -/
def replayOneSubstitution (p : ProcObj) (v : String) : ProcObj :=
  match pySplit1 v '=' with
  | [m0, r0] =>
    { p with prompt := pyReplace p.prompt (pyStrip m0) (pyStrip r0),
             negative_prompt := pyReplace p.negative_prompt (pyStrip m0) (pyStrip r0) }
  | _ => p

/-- A concrete generation request used by the witness and counterexample
instances. -/
def exampleP : ProcObj :=
  { prompt := "a cat sits", negative_prompt := "", seed := -1, subseed := -1,
    n_iter := 3, batch_size := 4, do_not_save_samples := false,
    do_not_save_grid := false, steps := 20, enable_hr := none,
    hr_second_pass_steps := none, inf_grid_use_result_index := none,
    inf_grid_out_width := none, inf_grid_out_height := none }

/-- A concrete shared configuration (the pre-coordinate snapshot). -/
def optsA : Opts := ⟨some "modelA", some "vaeA", 5, "restorerA"⟩

/-- A second concrete shared configuration (as left by parameter application). -/
def optsB : Opts := ⟨some "modelB", some "vaeB", 7, "restorerB"⟩

/-! ## Helper lemmas about the string scanner -/

theorem leadsWith_append (sub t : List Char) : leadsWith sub (sub ++ t) = true := by
  induction sub with
  | nil => rfl
  | cons c cs ih => simp [leadsWith, ih]

theorem containsL_nil_left (l : List Char) : containsL [] l = true := by
  cases l with
  | nil => rfl
  | cons c rest => simp [containsL, leadsWith]

theorem containsL_append (a sub b : List Char) :
    containsL sub (a ++ (sub ++ b)) = true := by
  induction a with
  | nil =>
    cases sub with
    | nil => simpa using containsL_nil_left b
    | cons c cs =>
      have h := leadsWith_append (c :: cs) b
      simp only [List.cons_append] at h
      simp [containsL, h]
  | cons x xs ih => simp [containsL, ih]

theorem pyContains_of_parts (s a sub b : String) (h : s.data = a.data ++ (sub.data ++ b.data)) :
    pyContains s sub = true := by
  rw [pyContains, h]
  exact containsL_append a.data sub.data b.data

theorem strData_append (a b : String) : (a ++ b).data = a.data ++ b.data := by
  cases a
  cases b
  rfl

/-- The PRE_DRY snapshot copies exactly the four shared fields, so it is the
identity on the modelled configuration record. -/
theorem pre_dry_hook_eq (o : Opts) : a1111_grid_runner_pre_dry_hook o = o := rfl

theorem postDry_optsAfter (render : ProcObj → List Nat) (f1 f2 : Int)
    (temp opts : Opts) (p : ProcObj) :
    (a1111_grid_runner_post_dry_hook render f1 f2 temp opts p).optsAfter =
      if (render { p with seed := get_fixed_seed f1 p.seed,
                          subseed := get_fixed_seed f2 p.subseed }).length < 1
      then opts else temp := by
  simp only [a1111_grid_runner_post_dry_hook]
  split <;> simp

theorem postDry_isOk (render : ProcObj → List Nat) (f1 f2 : Int)
    (temp opts : Opts) (p : ProcObj) :
    exceptIsOk (a1111_grid_runner_post_dry_hook render f1 f2 temp opts p).outcome =
      decide (1 ≤ (render { p with seed := get_fixed_seed f1 p.seed,
                                   subseed := get_fixed_seed f2 p.subseed }).length) := by
  simp only [a1111_grid_runner_post_dry_hook]
  split
  · rename_i h
    rw [eq_comm]
    simp only [exceptIsOk, decide_eq_false_iff_not]
    omega
  · rename_i h
    rw [eq_comm]
    simp only [exceptIsOk, decide_eq_true_eq]
    omega

/-! ## Claim theorems -/

/-- C1 (counterexample): the claim "the per-coordinate RESTORE step writes the
PRE_DRY snapshot back into shared backend configuration unconditionally — even
when DRY_OR_RENDER fails with RenderError" is false on the code: with the
PRE_DRY snapshot `optsA`, the shared configuration mutated to `optsB` by
parameter application, and a backend producing zero images, the hook raises at
line 263 before the restore at lines 281–284 ever runs, so the configuration
after the coordinate is still `optsB`, not the snapshot. -/
theorem C1_counterexample :
    (a1111_grid_runner_post_dry_hook (fun _ => []) 0 0
      (a1111_grid_runner_pre_dry_hook optsA) optsB exampleP).optsAfter = optsB ∧
    optsB ≠ a1111_grid_runner_pre_dry_hook optsA ∧
    exceptIsOk (a1111_grid_runner_post_dry_hook (fun _ => []) 0 0
      (a1111_grid_runner_pre_dry_hook optsA) optsB exampleP).outcome = false := by
  decide

/-- C1 (amended): the per-coordinate RESTORE step writes the PRE_DRY snapshot
back into the four shared-configuration fields only when DRY_OR_RENDER
succeeds (the backend produced at least one image); when the backend returns
zero images the hook fails with RenderError before the restore runs, leaving
the shared configuration exactly as it was when the hook was entered (the
whole-run guard, not the coordinate, then performs the restoration). -/
theorem C1_restore_only_on_success (render : ProcObj → List Nat)
    (fresh1 fresh2 : Int) (optsPre optsDry : Opts) (p : ProcObj) :
    (a1111_grid_runner_post_dry_hook render fresh1 fresh2
        (a1111_grid_runner_pre_dry_hook optsPre) optsDry p).optsAfter =
      (if (render { p with seed := get_fixed_seed fresh1 p.seed,
                           subseed := get_fixed_seed fresh2 p.subseed }).length < 1
       then optsDry else optsPre) ∧
    exceptIsOk (a1111_grid_runner_post_dry_hook render fresh1 fresh2
        (a1111_grid_runner_pre_dry_hook optsPre) optsDry p).outcome =
      decide (1 ≤ (render { p with seed := get_fixed_seed fresh1 p.seed,
                                   subseed := get_fixed_seed fresh2 p.subseed }).length) := by
  constructor
  · have h := postDry_optsAfter render fresh1 fresh2
      (a1111_grid_runner_pre_dry_hook optsPre) optsDry p
    rwa [pre_dry_hook_eq] at h
  · exact postDry_isOk render fresh1 fresh2
      (a1111_grid_runner_pre_dry_hook optsPre) optsDry p

/-- C2: for every run of the whole-run guard scope (`with SettingsFixer():`),
on every exit path — the body's outcome, success or raised error, is whatever
the body produced — the guard restores all four captured shared-configuration
fields to their values at scope entry and then invokes the model-reload and
VAE-reload backend operations, both seeing the restored configuration. -/
theorem C2_settings_fixer_restores_on_every_exit {α : Type}
    (body : RunSt → Except String α × RunSt) (s : RunSt) :
    (withSettingsFixer body s).2.opts = s.opts ∧
    (withSettingsFixer body s).2.events =
      (body s).2.events ++ [BackendEvent.reloadModel s.opts, BackendEvent.reloadVae s.opts] ∧
    (withSettingsFixer body s).1 = (body s).1 := by
  unfold withSettingsFixer settingsFixerRelease settingsFixerCapture
  exact ⟨rfl, rfl, rfl⟩

/-- C3: the per-coordinate step-count estimator returns base = the
coordinate's own steps value when set, else the request default; when the
high-resolution pass is enabled for the coordinate (explicit value, else the
request default, absent meaning disabled), it adds the highres step count
(explicit value, else the request's default highres-pass steps — where the
backend's default of 0 means unset — else the base step count).  Steps=20 with
highres enabled and highres-steps=10 gives 30; highres disabled gives 20;
unset steps falls back to the request default. -/
theorem C3_step_count_estimator (p : ProcObj) (ps : Option Int)
    (pe : Option Bool) (ph : Option Int) :
    (a1111_grid_runner_count_steps p ps pe ph =
      (if pe.getD (p.enable_hr.getD false) then
        ps.getD p.steps + ph.getD (pyOrInt p.hr_second_pass_steps (ps.getD p.steps))
       else ps.getD p.steps)) ∧
    a1111_grid_runner_count_steps exampleP (some 20) (some true) (some 10) = 30 ∧
    a1111_grid_runner_count_steps exampleP (some 20) (some false) (some 10) = 20 ∧
    a1111_grid_runner_count_steps exampleP none none none = 20 := by
  refine ⟨?_, by decide, by decide, by decide⟩
  unfold a1111_grid_runner_count_steps
  cases ps <;> cases pe <;> cases ph <;> simp [Option.getD]

/-- C9: applying the Model mode writes the resolved checkpoint id into
`opts.sd_model_checkpoint` and then triggers the backend model-weights reload
before returning, the reload seeing the already-mutated configuration; the VAE
mode likewise writes the resolved VAE id into `opts.sd_vae` and triggers the
VAE-weights reload before returning, so each shared-state mutation is active
by the time the backend reload runs. -/
theorem C9_shared_state_mutation_active_before_render
    (checkpoint_titles vae_names : List String) (v : String) (s : RunSt) :
    ((apply_model checkpoint_titles v s).opts =
        { s.opts with sd_model_checkpoint := get_model_for checkpoint_titles v } ∧
      (apply_model checkpoint_titles v s).events =
        s.events ++ [BackendEvent.reloadModel (apply_model checkpoint_titles v s).opts]) ∧
    ((apply_vae vae_names v s).opts =
        { s.opts with sd_vae :=
            (if clean_name v = "none" then some "None"
             else if clean_name v = "auto" || clean_name v = "automatic" then some "Automatic"
             else get_vae_for vae_names (clean_name v)) } ∧
      (apply_vae vae_names v s).events =
        s.events ++ [BackendEvent.reloadVae (apply_vae vae_names v s).opts]) := by
  unfold apply_model apply_vae
  exact ⟨⟨rfl, rfl⟩, ⟨rfl, rfl⟩⟩

/-- C6: for every render result with at least one image and every configured
result index, POST_PROCESS selects the image at that index, clamping to the
last available image when the index is at or past the number of produced
images; the selected index is always in bounds (the selection never raises). -/
theorem C6_result_index_clamped (images : List Nat) (ridx : Nat)
    (temp opts : Opts) (p : ProcObj) (f1 f2 : Int)
    (h : 1 ≤ images.length) :
    (a1111_grid_runner_post_dry_hook (fun _ => images) f1 f2 temp opts
        { p with inf_grid_use_result_index := some ridx }).outcome =
      .ok (if ridx ≥ images.length then images.length - 1 else ridx) ∧
    (if ridx ≥ images.length then images.length - 1 else ridx) < images.length := by
  constructor
  · simp only [a1111_grid_runner_post_dry_hook]
    rw [if_neg (by omega)]
    simp
  · split <;> omega

/-- C6 witness: result index 5 with only 2 produced images selects image
index 1. -/
theorem C6_witness :
    (a1111_grid_runner_post_dry_hook (fun _ => [10, 20]) 0 0 optsA optsA
        { exampleP with inf_grid_use_result_index := some 5 }).outcome = .ok 1 ∧
    (1 : Nat) < 2 := by
  have h := C6_result_index_clamped [10, 20] 5 optsA optsA exampleP 0 0 (by decide)
  simpa using h

theorem postDry_invoked (render : ProcObj → List Nat) (f1 f2 : Int)
    (temp opts : Opts) (p : ProcObj) :
    (a1111_grid_runner_post_dry_hook render f1 f2 temp opts p).invoked =
      { p with seed := get_fixed_seed f1 p.seed,
               subseed := get_fixed_seed f2 p.subseed } := by
  simp only [a1111_grid_runner_post_dry_hook]
  split <;> rfl

/-- C7: for every non-dry coordinate, the backend is invoked with batch size
and iteration count forced to 1 (by the run-level cleanup) and with unset
(`-1`) random seed and variation seed replaced by the definite values the seed
fixing produces — both invoked seeds are never `-1` — and the coordinate's
outcome is a RenderError exactly when the backend returned zero images. -/
theorem C7_backend_invocation (render : ProcObj → List Nat)
    (f0 f1 f2 : Int) (temp opts : Opts) (p : ProcObj)
    (h0 : f0 ≠ -1) (h2 : f2 ≠ -1) :
    (a1111_grid_runner_post_dry_hook render f1 f2 temp opts
        (scriptRunCleanup f0 p)).invoked =
      { p with n_iter := 1, batch_size := 1,
               do_not_save_samples := true, do_not_save_grid := true,
               seed := if p.seed = -1 then f0 else p.seed,
               subseed := if p.subseed = -1 then f2 else p.subseed } ∧
    (if p.seed = -1 then f0 else p.seed) ≠ -1 ∧
    (if p.subseed = -1 then f2 else p.subseed) ≠ -1 ∧
    exceptIsOk (a1111_grid_runner_post_dry_hook render f1 f2 temp opts
        (scriptRunCleanup f0 p)).outcome =
      !(render { p with n_iter := 1, batch_size := 1,
                        do_not_save_samples := true, do_not_save_grid := true,
                        seed := if p.seed = -1 then f0 else p.seed,
                        subseed := if p.subseed = -1 then f2 else p.subseed }).isEmpty := by
  have hinv : (a1111_grid_runner_post_dry_hook render f1 f2 temp opts
      (scriptRunCleanup f0 p)).invoked =
      { p with n_iter := 1, batch_size := 1,
               do_not_save_samples := true, do_not_save_grid := true,
               seed := if p.seed = -1 then f0 else p.seed,
               subseed := if p.subseed = -1 then f2 else p.subseed } := by
    rw [postDry_invoked]
    simp only [scriptRunCleanup, get_fixed_seed]
    split_ifs <;> simp_all
  refine ⟨hinv, by split_ifs <;> simp_all, by split_ifs <;> simp_all, ?_⟩
  have hk := postDry_isOk render f1 f2 temp opts (scriptRunCleanup f0 p)
  rw [hk]
  have hq : ({ (scriptRunCleanup f0 p) with
      seed := get_fixed_seed f1 (scriptRunCleanup f0 p).seed,
      subseed := get_fixed_seed f2 (scriptRunCleanup f0 p).subseed } : ProcObj) =
      { p with n_iter := 1, batch_size := 1,
               do_not_save_samples := true, do_not_save_grid := true,
               seed := if p.seed = -1 then f0 else p.seed,
               subseed := if p.subseed = -1 then f2 else p.subseed } := by
    simp only [scriptRunCleanup, get_fixed_seed]
    split_ifs <;> simp_all
  rw [hq]
  cases render { p with n_iter := 1, batch_size := 1,
                        do_not_save_samples := true, do_not_save_grid := true,
                        seed := if p.seed = -1 then f0 else p.seed,
                        subseed := if p.subseed = -1 then f2 else p.subseed } <;> simp

/-- C7 witness: a request with both seeds unset, backend drawing 7 and 9,
rendering one image: the invocation carries batch size 1, iteration count 1
and the drawn seeds, and the outcome is a success. -/
theorem C7_witness :
    (a1111_grid_runner_post_dry_hook (fun _ => [42]) 7 9 optsA optsA
        (scriptRunCleanup 7 exampleP)).invoked =
      { exampleP with n_iter := 1, batch_size := 1,
                      do_not_save_samples := true, do_not_save_grid := true,
                      seed := 7, subseed := 9 } ∧
    (7 : Int) ≠ -1 ∧ (9 : Int) ≠ -1 ∧
    exceptIsOk (a1111_grid_runner_post_dry_hook (fun _ => [42]) 7 9 optsA optsA
        (scriptRunCleanup 7 exampleP)).outcome = true := by
  have h := C7_backend_invocation (fun _ => [42]) 7 7 9 optsA optsA exampleP
    (by decide) (by decide)
  simpa [exampleP] using h

/-- C10: for every invocation of the script entry point `run`, if the grid
file name is empty or contains `..`, or the output file path contains `..`,
or the grid file is "Create in UI" while the output file path is empty, then
`run` raises before grid generation starts: the result is an error and the
shared backend state (configuration and reload trace) is returned exactly as
it was, whatever the grid-generation oracle would have done. -/
theorem C10_run_validation_guards
    (run_grid_gen : ProcObj → RunSt → Except String (Option Nat) × RunSt)
    (fresh : Int) (grid_file output_file_path : String) (p : ProcObj) (s : RunSt)
    (h : pyContains grid_file ".." = true ∨ grid_file = "" ∨
         pyContains output_file_path ".." = true ∨
         (grid_file = "Create in UI" ∧ output_file_path = "")) :
    ∃ msg, Script_run run_grid_gen fresh grid_file output_file_path p s =
      (.error msg, s) := by
  unfold Script_run
  rcases h with h | h | h | ⟨h1, h2⟩
  · rw [if_pos (by simp [h])]
    exact ⟨_, rfl⟩
  · rw [if_pos (by simp [h])]
    exact ⟨_, rfl⟩
  · by_cases hg : (pyContains grid_file ".." || decide (grid_file = "")) = true
    · rw [if_pos hg]
      exact ⟨_, rfl⟩
    · rw [if_neg hg, if_pos (by simp [h])]
      exact ⟨_, rfl⟩
  · subst h1
    subst h2
    rw [if_neg (by decide), if_neg (by decide), if_pos (by decide)]
    exact ⟨_, rfl⟩

/-- C10 witness: a grid-file name containing `..` is rejected with the state
unchanged. -/
theorem C10_witness :
    ∃ msg, Script_run (fun _ st => (.ok none, st)) 0 "a..b" "out" exampleP
      ⟨optsA, []⟩ = (.error msg, ⟨optsA, []⟩) :=
  C10_run_validation_guards (fun _ st => (.ok none, st)) 0 "a..b" "out" exampleP
    ⟨optsA, []⟩ (Or.inl (by decide))

/-- C8: for each catalog-backed mode (Model, VAE), a raw value that matches no
entry of the mode's catalog makes `clean` fail with a validation error whose
message carries the parameter name, the offending value, and the accepted
catalog values; a matching value (or, for VAE, one of the special names
`none`/`auto`/`automatic`) makes `clean` return a normalized name without
failing. -/
theorem C8_clean_catalog_validation (checkpoint_titles vae_names : List String)
    (p v : String) :
    (get_best_in_list v checkpoint_titles = none →
      ∃ msg, clean_model checkpoint_titles p v = .error msg ∧
        pyContains msg p = true ∧ pyContains msg v = true ∧
        pyContains msg (pyListRepr checkpoint_titles) = true) ∧
    (∀ m, get_best_in_list v checkpoint_titles = some m →
      clean_model checkpoint_titles p v = .ok (choose_better_file_name v m)) ∧
    (clean_name v ≠ "none" → clean_name v ≠ "auto" → clean_name v ≠ "automatic" →
      get_vae_for vae_names (clean_name v) = none →
      ∃ msg, clean_vae vae_names p v = .error msg ∧
        pyContains msg p = true ∧ pyContains msg v = true ∧
        pyContains msg (pyListRepr vae_names) = true) ∧
    ((clean_name v = "none" ∨ clean_name v = "auto" ∨ clean_name v = "automatic"
        ∨ (∃ m, get_vae_for vae_names (clean_name v) = some m)) →
      ∃ r, clean_vae vae_names p v = .ok r) := by
  refine ⟨?_, ?_, ?_, ?_⟩
  · intro hnone
    refine ⟨"Invalid parameter '" ++ p ++ "' as '" ++ v ++
      "': model name unrecognized - valid " ++ pyListRepr checkpoint_titles,
      ?_, ?_, ?_, ?_⟩
    · rw [clean_model, get_model_for, hnone]
    · exact pyContains_of_parts _ "Invalid parameter '" p
        ("' as '" ++ v ++ "': model name unrecognized - valid " ++
          pyListRepr checkpoint_titles)
        (by simp [strData_append])
    · exact pyContains_of_parts _ ("Invalid parameter '" ++ p ++ "' as '") v
        ("': model name unrecognized - valid " ++ pyListRepr checkpoint_titles)
        (by simp [strData_append])
    · exact pyContains_of_parts _
        ("Invalid parameter '" ++ p ++ "' as '" ++ v ++
          "': model name unrecognized - valid ")
        (pyListRepr checkpoint_titles) ""
        (by simp [strData_append])
  · intro m hm
    rw [clean_model, get_model_for, hm]
  · intro h1 h2 h3 hnone
    refine ⟨"Invalid parameter '" ++ p ++ "' as '" ++ v ++
      "': VAE name unrecognized - valid: " ++ pyListRepr vae_names,
      ?_, ?_, ?_, ?_⟩
    · rw [clean_vae]
      rw [if_neg (by simp [h1, h2, h3]), hnone]
    · exact pyContains_of_parts _ "Invalid parameter '" p
        ("' as '" ++ v ++ "': VAE name unrecognized - valid: " ++
          pyListRepr vae_names)
        (by simp [strData_append])
    · exact pyContains_of_parts _ ("Invalid parameter '" ++ p ++ "' as '") v
        ("': VAE name unrecognized - valid: " ++ pyListRepr vae_names)
        (by simp [strData_append])
    · exact pyContains_of_parts _
        ("Invalid parameter '" ++ p ++ "' as '" ++ v ++
          "': VAE name unrecognized - valid: ")
        (pyListRepr vae_names) ""
        (by simp [strData_append])
  · intro h
    rw [clean_vae]
    rcases h with h | h | h | ⟨m, hm⟩
    · rw [if_pos (by simp [h])]
      exact ⟨_, rfl⟩
    · rw [if_pos (by simp [h])]
      exact ⟨_, rfl⟩
    · rw [if_pos (by simp [h])]
      exact ⟨_, rfl⟩
    · by_cases hs : (clean_name v = "none" || clean_name v = "auto" ||
        clean_name v = "automatic") = true
      · rw [if_pos hs]
        exact ⟨_, rfl⟩
      · rw [if_neg hs, hm]
        exact ⟨_, rfl⟩

/-- C8 witness: `gamma` matches neither entry of the two-model catalog, so
`clean` fails carrying name, value and catalog; `alphav1` matches, `Auto`
passes the VAE special names, and an unknown VAE name fails with the VAE
catalog in the message. -/
theorem C8_witness :
    (∃ msg, clean_model ["Alpha V1", "Beta"] "model" "gamma" = .error msg ∧
      pyContains msg "model" = true ∧ pyContains msg "gamma" = true ∧
      pyContains msg (pyListRepr ["Alpha V1", "Beta"]) = true) ∧
    clean_model ["Alpha V1", "Beta"] "model" "alphav1" =
      .ok (choose_better_file_name "alphav1" "Alpha V1") ∧
    (∃ msg, clean_vae ["vaeX"] "vae" "missing" = .error msg ∧
      pyContains msg "vae" = true ∧ pyContains msg "missing" = true ∧
      pyContains msg (pyListRepr ["vaeX"]) = true) ∧
    (∃ r, clean_vae ["vaeX"] "vae" "Auto" = .ok r) := by
  refine ⟨(C8_clean_catalog_validation ["Alpha V1", "Beta"] ["vaeX"] "model" "gamma").1
      (by decide),
    (C8_clean_catalog_validation ["Alpha V1", "Beta"] ["vaeX"] "model" "alphav1").2.1
      "Alpha V1" (by decide),
    (C8_clean_catalog_validation ["Alpha V1", "Beta"] ["vaeX"] "vae" "missing").2.2.1
      (by decide) (by decide) (by decide) (by decide),
    (C8_clean_catalog_validation ["Alpha V1", "Beta"] ["vaeX"] "vae" "Auto").2.2.2
      (Or.inr (Or.inl (by decide)))⟩

/-- C4 (counterexample): the claim "the apply phase replays every recorded
substitution, each one literally replacing its match text with its replace
text" is false on the code: for the recorded value `"a=aa&&z"` (match `a`,
replace `aa&&z`, split at the first `=`), one literal replacement of the
prompt `"a"` gives `"aa&&z"`, but the code splits the value on `&&` into two
instructions and re-applies the whole-value substitution once per instruction
(line 99 splits `v`, not the instruction), producing `"aa&&zaa&&z&&z"`. -/
theorem C4_counterexample :
    a1111_grid_call_apply_hook false ["a=aa&&z"] { exampleP with prompt := "a" } =
      .ok { exampleP with prompt := "aa&&zaa&&z&&z" } ∧
    [("a=aa&&z" : String)].foldl replayOneSubstitution { exampleP with prompt := "a" } =
      { exampleP with prompt := "aa&&z" } ∧
    ("aa&&zaa&&z&&z" : String) ≠ "aa&&z" := by
  refine ⟨by rfl, by rfl, by decide⟩

/-- C4 (amended): every prompt-replace axis value seen by paramAdd is only
recorded — paramAdd returns `true` for it, touches no request text field, and
appends the value to the replacement list — and the later apply phase replays
the recorded substitutions in the order recorded; for recorded values that
contain no `&&` separator and contain a `=`, and with match-validation
disabled, each replay is exactly one literal replacement of the value's match
text (before the first `=`, stripped) by its replace text (after it, stripped)
in both the primary and the negative prompt.  With validation enabled, the
recorded values `"cat=dog"` then `"dog=fox"` applied to prompt `"a cat sits"`
yield `"a fox sits"`.  (Values containing `&&` are excluded: see the
counterexample.) -/
theorem C4_prompt_replace_two_phase :
    (∀ (gc : SingleGridCall) (value : String),
      a1111_grid_call_param_add_hook gc "Prompt Replace" value =
        .ok ({ gc with grid := seedMinima gc.grid, replacements := gc.replacements ++ [value] }, true)) ∧
    (∀ (reps : List String) (p : ProcObj),
      (∀ v ∈ reps, pySplit v "&&" = [v] ∧ (pySplit1 v '=').length = 2) →
      a1111_grid_call_apply_hook false reps p = .ok (reps.foldl replayOneSubstitution p)) ∧
    a1111_grid_call_apply_hook true ["cat=dog", "dog=fox"] exampleP =
      .ok { exampleP with prompt := "a fox sits" } := by
  refine ⟨?_, ?_, by rfl⟩
  · intro gc value
    simp only [a1111_grid_call_param_add_hook, seedMinima]
    rw [if_pos (by decide : clean_mode "Prompt Replace" = "promptreplace")]
  · intro reps
    induction reps with
    | nil => intro p _; rfl
    | cons v vs ih =>
      intro p h
      obtain ⟨⟨hsplit, hlen⟩, hrest⟩ := List.forall_mem_cons.mp h
      have hstep : apply_prompt_replace false p v = .ok (replayOneSubstitution p v) := by
        unfold apply_prompt_replace replayOneSubstitution
        rw [hsplit]
        cases heq : pySplit1 v '=' with
        | nil => rw [heq] at hlen; simp at hlen
        | cons m0 t =>
          cases t with
          | nil => rw [heq] at hlen; simp at hlen
          | cons r0 t2 =>
            cases t2 with
            | nil => simp [heq]
            | cons x t3 => rw [heq] at hlen; simp at hlen
      unfold a1111_grid_call_apply_hook at ih ⊢
      rw [List.foldlM_cons, hstep]
      show (List.foldlM (fun p replace => apply_prompt_replace false p replace)
        (replayOneSubstitution p v) vs) = _
      rw [ih (replayOneSubstitution p v) hrest, List.foldl_cons]

/-- C4 witness: one recorded single-instruction value `"cat=dog"` replayed on
the example request is exactly its single literal replacement. -/
theorem C4_witness :
    a1111_grid_call_apply_hook false ["cat=dog"] exampleP =
      .ok (["cat=dog"].foldl replayOneSubstitution exampleP) ∧
    ["cat=dog"].foldl replayOneSubstitution exampleP =
      { exampleP with prompt := "a dog sits" } :=
  ⟨C4_prompt_replace_two_phase.2.1 ["cat=dog"] exampleP (by decide), by rfl⟩

/-- C5 (counterexample): the claim "every subsequent paramAdd touching a
width-like axis sets the grid minimum to the minimum of the running value and
the observed value; hence it is monotonically non-increasing" is false on the
code: with base width 512, observing width 0 then 5 leaves the grid minimum
at 5 — the falsy `or` guard (`min_width or 99999`) treats the running value 0
as unset — although min 0 5 = 0, and 5 is an increase over 0. -/
theorem C5_counterexample :
    a1111_grid_call_param_add_hook ⟨⟨512, 512, none, none⟩, []⟩ "Width" "0" =
      .ok (⟨⟨512, 512, some 0, some 512⟩, []⟩, false) ∧
    a1111_grid_call_param_add_hook ⟨⟨512, 512, some 0, some 512⟩, []⟩ "Width" "5" =
      .ok (⟨⟨512, 512, some 5, some 512⟩, []⟩, false) ∧
    min (0 : Int) 5 ≠ 5 ∧ ¬ ((5 : Int) ≤ 0) := by
  refine ⟨by rfl, by rfl, by norm_num, by norm_num⟩

/-- C5 (amended): the grid-level minimum width (resp. height) is seeded on
first observation from the request's base width (resp. height), and every
subsequent paramAdd touching a width-like axis (width, out-width) or
height-like axis (height, out-height) sets it to the minimum of the running
value and the observed value — provided the running value is nonzero; a
running value of zero is treated as unset by the falsy guard and replaced by
`min 99999 observed`.  The running minimum is therefore non-increasing while
it stays nonzero, and observing width values 512 then 768 with a nonzero base
width leaves the grid-level minimum at min(base width, 512). -/
theorem C5_min_dimension_bookkeeping :
    (∀ (gc : SingleGridCall) (param value : String) (n w : Int),
      (clean_mode param = "width" ∨ clean_mode param = "outwidth") →
      pyInt? value = some n → gc.grid.min_width = some w → w ≠ 0 →
      a1111_grid_call_param_add_hook gc param value =
        .ok ({ gc with grid := { seedMinima gc.grid with min_width := some (min w n) } }, false) ∧
      min w n ≤ w) ∧
    (∀ (gc : SingleGridCall) (param value : String) (n h : Int),
      (clean_mode param = "height" ∨ clean_mode param = "outheight") →
      pyInt? value = some n → gc.grid.min_height = some h → h ≠ 0 →
      a1111_grid_call_param_add_hook gc param value =
        .ok ({ gc with grid := { seedMinima gc.grid with min_height := some (min h n) } }, false) ∧
      min h n ≤ h) ∧
    (∀ (gc : SingleGridCall) (param value : String) (n : Int),
      (clean_mode param = "width" ∨ clean_mode param = "outwidth") →
      pyInt? value = some n → gc.grid.min_width = none → gc.grid.initial_width ≠ 0 →
      (seedMinima gc.grid).min_width = some gc.grid.initial_width ∧
      a1111_grid_call_param_add_hook gc param value =
        .ok ({ gc with grid := { seedMinima gc.grid with min_width := some (min gc.grid.initial_width n) } }, false)) ∧
    (∀ (w0 h0 : Int), w0 ≠ 0 →
      a1111_grid_call_param_add_hook ⟨⟨w0, h0, none, none⟩, []⟩ "Width" "512" =
        .ok (⟨⟨w0, h0, some (min w0 512), some h0⟩, []⟩, false) ∧
      a1111_grid_call_param_add_hook ⟨⟨w0, h0, some (min w0 512), some h0⟩, []⟩ "Width" "768" =
        .ok (⟨⟨w0, h0, some (min w0 512), some h0⟩, []⟩, false)) := by
  refine ⟨?_, ?_, ?_, ?_⟩
  · intro gc param value n w hp hv hw h0
    refine ⟨?_, min_le_left w n⟩
    have hnp : ¬ clean_mode param = "promptreplace" := by
      rcases hp with hp | hp <;> simp [hp]
    simp only [a1111_grid_call_param_add_hook, seedMinima, hw]
    rw [if_neg hnp]
    rcases hp with hp | hp <;>
      by_cases hh2 : gc.grid.min_height = none <;>
        simp [hp, hv, pyOrInt, h0, hw, hh2]
  · intro gc param value n h hp hv hh h0
    refine ⟨?_, min_le_left h n⟩
    have hnp : ¬ clean_mode param = "promptreplace" := by
      rcases hp with hp | hp <;> simp [hp]
    simp only [a1111_grid_call_param_add_hook, seedMinima, hh]
    rw [if_neg hnp]
    rcases hp with hp | hp <;>
      by_cases hw2 : gc.grid.min_width = none <;>
        simp [hp, hv, pyOrInt, h0, hh, hw2]
  · intro gc param value n hp hv hw h0
    have hnp : ¬ clean_mode param = "promptreplace" := by
      rcases hp with hp | hp <;> simp [hp]
    constructor
    · by_cases hh2 : gc.grid.min_height = none <;> simp [seedMinima, hw, hh2]
    · simp only [a1111_grid_call_param_add_hook, seedMinima, hw]
      rw [if_neg hnp]
      rcases hp with hp | hp <;>
        by_cases hh2 : gc.grid.min_height = none <;>
          simp [hp, hv, pyOrInt, h0, hw, hh2]
  · intro w0 h0 hz
    have hcm : clean_mode "Width" = "width" := by decide
    have hv5 : pyInt? "512" = some 512 := by decide
    have hv7 : pyInt? "768" = some 768 := by decide
    have hmz : min w0 512 ≠ 0 := by
      rcases min_choice w0 512 with hm | hm <;> rw [hm]
      · exact hz
      · decide
    have hmm : min (min w0 512) 768 = min w0 512 :=
      min_eq_left (le_trans (min_le_right w0 512) (by norm_num))
    constructor
    · simp [a1111_grid_call_param_add_hook, hcm, hv5, pyOrInt, hz]
    · simp [a1111_grid_call_param_add_hook, hcm, hv7, pyOrInt, hmz, hmm]

/-- C5 witness: base width 1000, observing 512 then 768 leaves the grid-level
minimum width at min(1000, 512) = 512. -/
theorem C5_witness :
    (a1111_grid_call_param_add_hook ⟨⟨1000, 500, none, none⟩, []⟩ "Width" "512" =
        .ok (⟨⟨1000, 500, some (min 1000 512), some 500⟩, []⟩, false) ∧
      a1111_grid_call_param_add_hook ⟨⟨1000, 500, some (min 1000 512), some 500⟩, []⟩ "Width" "768" =
        .ok (⟨⟨1000, 500, some (min 1000 512), some 500⟩, []⟩, false)) ∧
    min (1000 : Int) 512 = 512 :=
  ⟨C5_min_dimension_bookkeeping.2.2.2 1000 500 (by decide), by norm_num⟩

end InfinityGrid
